import Mathlib

/-!
Verification of the real-time synchronization client of the hotel
operations dashboard.

The development shallowly embeds:
* the record types of `frontend/src/types/index.ts`;
* the two Redux slices (`requestsSlice`, `feedbackSlice`): collections are
  `List`s ordered most-recent-first, `unshift` is list cons,
  `findIndex`/`state.items[index] = payload` is `List.findIdx?`/`List.set`;
* the WebSocket hook `frontend/src/hooks/useWebSocket.ts`: the mutable refs
  and local flags of one effect run become the fields of an explicit state
  record `WSState`, and each asynchronous callback (`onopen`, `onerror`,
  `onclose`, `onmessage`, the retry timer, the effect cleanup, `clearError`)
  becomes a state-transition function.  Discrete events drive the machine
  one at a time, matching the single-threaded event-loop scheduling of the
  browser.  Ghost counters `socketsCreated` (number of `new WebSocket(..)`
  constructions) and `noticesSurfaced` (number of times a connection-failure
  notice was set) record the observables the specification talks about.
-/

namespace HotelOps

/-- Guest record (`types/index.ts`). Timestamps are kept as opaque strings,
string-literal union types as strings. -/
structure Guest where
  id : Int
  first_name : String
  last_name : String
  email : String
  phone : Option String
  created_at : String
deriving Repr, DecidableEq

/-- Room record (`types/index.ts`). -/
structure Room where
  id : Int
  room_number : String
  room_type : String
  floor : Int
  created_at : String
deriving Repr, DecidableEq

/-- Guest-service request record (`types/index.ts`).  `status` ranges over
the literals `Pending`, `In Progress`, `Completed`. -/
structure Request where
  id : Int
  guest_id : Int
  room_id : Int
  category : String
  description : String
  status : String
  created_at : String
  updated_at : String
  guest : Option Guest
  room : Option Room
deriving Repr, DecidableEq

/-- Guest feedback record (`types/index.ts`).  `sentiment` ranges over the
literals `Positive`, `Negative`, `Neutral`. -/
structure Feedback where
  id : Int
  guest_id : Int
  room_id : Int
  message : String
  sentiment : String
  smart_response : Option String
  created_at : String
  guest : Option Guest
  room : Option Room
deriving Repr, DecidableEq

/-! ### Store operations

The `requests` slice (`store/requestsSlice.ts`) and the `feedback` slice
(`store/feedbackSlice.ts`).  `state.items` is the collection; the reducers
that touch it are `setRequests`/`setFeedback` (snapshot load),
`addRequest`/`addFeedback` (`state.items.unshift(action.payload)`) and
`updateRequest`/`updateFeedback` (`findIndex` on `id`, then in-place
assignment when found). -/

/-- `setRequests`: the collection becomes exactly the snapshot payload. -/
def setRequests (_items : List Request) (payload : List Request) : List Request :=
  payload

/-- `addRequest`: `state.items.unshift(action.payload)`. -/
def addRequest (items : List Request) (payload : Request) : List Request :=
  payload :: items

/-- `updateRequest`: `findIndex(r => r.id === action.payload.id)`; when the
index is not `-1`, `state.items[index] = action.payload`, otherwise nothing. -/
def updateRequest (items : List Request) (payload : Request) : List Request :=
  match items.findIdx? (fun r => r.id == payload.id) with
  | some i => items.set i payload
  | none => items

/-- `setFeedback`: the collection becomes exactly the snapshot payload. -/
def setFeedback (_items : List Feedback) (payload : List Feedback) : List Feedback :=
  payload

/-- `addFeedback`: `state.items.unshift(action.payload)`. -/
def addFeedback (items : List Feedback) (payload : Feedback) : List Feedback :=
  payload :: items

/-- `updateFeedback`: `findIndex(f => f.id === action.payload.id)`; when the
index is not `-1`, `state.items[index] = action.payload`, otherwise nothing. -/
def updateFeedback (items : List Feedback) (payload : Feedback) : List Feedback :=
  match items.findIdx? (fun f => f.id == payload.id) with
  | some i => items.set i payload
  | none => items

/-- Identifier uniqueness of the requests collection: no two records share
an `id`. -/
def uniqueRequestIds (items : List Request) : Prop :=
  (items.map Request.id).Nodup

/-- Identifier uniqueness of the feedback collection: no two records share
an `id`. -/
def uniqueFeedbackIds (items : List Feedback) : Prop :=
  (items.map Feedback.id).Nodup

instance (items : List Request) : Decidable (uniqueRequestIds items) := by
  unfold uniqueRequestIds; infer_instance

instance (items : List Feedback) : Decidable (uniqueFeedbackIds items) := by
  unfold uniqueFeedbackIds; infer_instance

/-! ### Inbound frames and the message handler

An inbound frame is a raw text frame.  `ws.onmessage` runs `JSON.parse`
inside a `try`; a parse failure is caught, logged and discarded.  A parsed
message is an object `\x7b type, data \x7d`; the `switch` on `message.type`
dispatches the four recognized kinds to the slice reducers and falls
through (no `default` case) on any other kind.  The payload of a recognized
kind carries the record shape the server contract (`backend` WebSocket
broadcasts) associates with that kind. -/

/-- Payload of a parsed message: `message.data`, viewed as a `Request` or a
`Feedback` record according to the server contract. -/
inductive Payload where
  | ofRequest (r : Request)
  | ofFeedback (f : Feedback)
deriving Repr, DecidableEq

/-- Result of a successful `JSON.parse` of an inbound frame. -/
structure Message where
  type : String
  data : Payload
deriving Repr, DecidableEq

/-- An inbound text frame: either unparseable as JSON, or a well-formed
message object. -/
inductive Frame where
  | malformed
  | wellFormed (m : Message)
deriving Repr, DecidableEq

/-- `JSON.parse(event.data)`: throws (here: returns `.error`) on a
malformed frame, yields the message object otherwise. -/
def parseFrame : Frame → Except String Message
  | .malformed => .error "SyntaxError: unexpected token in JSON"
  | .wellFormed m => .ok m

/-! ### The WebSocket hook state machine (`hooks/useWebSocket.ts`)

One effect run of `useWebSocket` for a non-null token. -/

/-- `MAX_RETRY_ATTEMPTS` (`useWebSocket.ts`, line 8). -/
def MAX_RETRY_ATTEMPTS : Nat := 3

/-- `RETRY_DELAY` in milliseconds (`useWebSocket.ts`, line 9). -/
def RETRY_DELAY : Nat := 3000

/-- Retry decision consulted by `ws.onclose` (line 112): retry exactly when
the counter is still below `MAX_RETRY_ATTEMPTS`, always with the fixed
delay `RETRY_DELAY`. -/
def shouldRetry (attempt : Nat) : Bool × Nat :=
  (decide (attempt < MAX_RETRY_ATTEMPTS), RETRY_DELAY)

/-- The user-visible connection-failure notice (line 36). -/
def CONNECTION_ERROR_MESSAGE : String :=
  "Unable to establish real-time connection. Please check your internet connection and refresh the page."

/-- State of one effect run of the hook: the refs (`retryCountRef`,
`hasShownErrorRef`, `reconnectTimeoutRef`, `wsRef`), the React state
`connectionError`, the effect-local guards `isConnecting` and `isCleaning`,
the two store collections reached through `dispatchRef`, and two ghost
observables (`socketsCreated` counts `new WebSocket(..)` constructions,
`noticesSurfaced` counts notices set by `showConnectionError`). -/
structure WSState where
  retryCount : Nat
  hasShownError : Bool
  connectionError : Option String
  isConnecting : Bool
  isCleaning : Bool
  timerPending : Bool
  wsOpen : Bool
  socketsCreated : Nat
  noticesSurfaced : Nat
  requests : List Request
  feedback : List Feedback
deriving Repr, DecidableEq

/-- `showConnectionError` (lines 32-39): surface the notice once per failure
episode, guarded by `hasShownErrorRef`. -/
def showConnectionError (st : WSState) : WSState :=
  if st.hasShownError then st
  else
    { st with
      hasShownError := true
      connectionError := some CONNECTION_ERROR_MESSAGE
      noticesSurfaced := st.noticesSurfaced + 1 }

/-- `connect` (lines 41-131), on the non-throwing constructor path: return
immediately if an attempt is already in flight; set the in-flight guard;
give up with a single notice once the retry budget is spent (note the guard
is left set on this path, as in the source); otherwise construct a new
socket. -/
def connect (st : WSState) : WSState :=
  if st.isConnecting then st
  else
    let st := { st with isConnecting := true }
    if MAX_RETRY_ATTEMPTS ≤ st.retryCount then showConnectionError st
    else { st with socketsCreated := st.socketsCreated + 1, wsOpen := false }

/-- `ws.onopen` (lines 58-65): clear the in-flight guard, reset the retry
counter, clear the error flag and the surfaced notice. -/
def onopen (st : WSState) : WSState :=
  { st with
    isConnecting := false
    retryCount := 0
    hasShownError := false
    connectionError := none
    wsOpen := true }

/-- `ws.onerror` (lines 91-95): clear the in-flight guard and increment the
retry counter. -/
def onerror (st : WSState) : WSState :=
  { st with isConnecting := false, retryCount := st.retryCount + 1 }

/-- `ws.onclose` (lines 97-119): clear the in-flight guard; do nothing more
when cleanup is in progress; otherwise increment the retry counter, then
either schedule the retry timer or surface the single failure notice,
according to the retry decision. -/
def onclose (st : WSState) : WSState :=
  let st := { st with isConnecting := false, wsOpen := false }
  if st.isCleaning then st
  else
    let st := { st with retryCount := st.retryCount + 1 }
    if (shouldRetry st.retryCount).1 then { st with timerPending := true }
    else showConnectionError st

/-- The `switch (message.type)` of `ws.onmessage` (lines 72-85): the four
recognized kinds dispatch to the slice reducers; anything else falls
through with no effect. -/
def dispatchMessage (m : Message) (st : WSState) : WSState :=
  match m.type, m.data with
  | "new_request", .ofRequest r => { st with requests := addRequest st.requests r }
  | "request_updated", .ofRequest r => { st with requests := updateRequest st.requests r }
  | "new_feedback", .ofFeedback f => { st with feedback := addFeedback st.feedback f }
  | "feedback_updated", .ofFeedback f => { st with feedback := updateFeedback st.feedback f }
  | _, _ => st

/-- `ws.onmessage` (lines 67-89): parse the frame inside `try`; dispatch on
success; on a parse failure the `catch` only logs, leaving the state
untouched. -/
def onmessage (f : Frame) (st : WSState) : WSState :=
  match parseFrame f with
  | .ok m => dispatchMessage m st
  | .error _ => st

/-- The retry timer elapsing: `window.setTimeout(connect, RETRY_DELAY)`
(line 114) invokes `connect` only if the timeout was neither cancelled nor
already fired. -/
def timerFire (st : WSState) : WSState :=
  if st.timerPending then connect { st with timerPending := false } else st

/-- The effect cleanup (lines 135-144): set `isCleaning`, cancel any
pending retry timer with `clearTimeout`, and close the socket if it is
open. -/
def teardown (st : WSState) : WSState :=
  { st with isCleaning := true, timerPending := false, wsOpen := false }

/-- `clearError` (line 148): `setConnectionError(null)` and nothing else. -/
def clearError (st : WSState) : WSState :=
  { st with connectionError := none }

/-- The discrete asynchronous events that drive one effect run, dispatched
one at a time by the browser event loop. -/
inductive WSEvent where
  | sockOpen
  | sockError
  | sockClose
  | sockMessage (f : Frame)
  | retryTimer
  | unmount
  | dismiss
deriving Repr, DecidableEq

/-- One event-loop step. -/
def step (e : WSEvent) (st : WSState) : WSState :=
  match e with
  | .sockOpen => onopen st
  | .sockError => onerror st
  | .sockClose => onclose st
  | .sockMessage f => onmessage f st
  | .retryTimer => timerFire st
  | .unmount => teardown st
  | .dismiss => clearError st

/-- Run a sequence of events. -/
def runEvents (evs : List WSEvent) (st : WSState) : WSState :=
  evs.foldl (fun s e => step e s) st

/-- State at the start of an effect run for a freshly mounted consumer with
a non-null credential, before the initial `connect()` call (line 133). -/
def initState : WSState :=
  { retryCount := 0
    hasShownError := false
    connectionError := none
    isConnecting := false
    isCleaning := false
    timerPending := false
    wsOpen := false
    socketsCreated := 0
    noticesSurfaced := 0
    requests := []
    feedback := [] }

/-! ### Concrete sample data and scenario runs -/

/-- Sample request, id 1. -/
def req1 : Request :=
  { id := 1, guest_id := 10, room_id := 100, category := "Housekeeping"
    description := "Extra towels", status := "Pending"
    created_at := "2024-01-01T10:00:00", updated_at := "2024-01-01T10:00:00"
    guest := none, room := none }

/-- Sample request sharing id 1 with `req1` but with different fields. -/
def req1v2 : Request :=
  { req1 with description := "Extra towels and pillows", status := "In Progress" }

/-- Another request sharing id 1. -/
def req1v3 : Request :=
  { req1 with status := "Completed" }

/-- Sample request, id 2. -/
def req2 : Request :=
  { req1 with id := 2, category := "Room Service", description := "Breakfast" }

/-- Sample feedback, id 1. -/
def fb1 : Feedback :=
  { id := 1, guest_id := 10, room_id := 100, message := "Great stay"
    sentiment := "Positive", smart_response := none
    created_at := "2024-01-02T09:00:00", guest := none, room := none }

/-- Sample feedback sharing id 1 with `fb1` but with different fields. -/
def fb1v2 : Feedback :=
  { fb1 with message := "Great stay, slow check-in", sentiment := "Neutral" }

/-- Another feedback sharing id 1. -/
def fb1v3 : Feedback :=
  { fb1 with sentiment := "Negative" }

/-- Sample feedback, id 2. -/
def fb2 : Feedback :=
  { fb1 with id := 2, message := "Room was cold", sentiment := "Negative" }

/-- The run in which the initial connection attempt and the two scheduled
retries all fail, each failure reported by the transport as a close event. -/
def threeFailRun : WSState :=
  runEvents
    [WSEvent.sockClose, WSEvent.retryTimer, WSEvent.sockClose,
     WSEvent.retryTimer, WSEvent.sockClose]
    (connect initState)

/-- The run in which each failed attempt is reported as a transport error
event followed by a close event (the shape a browser reports for a
connection attempt that cannot be established), twice in a row. -/
def errorCloseTwiceRun : WSState :=
  runEvents
    [WSEvent.sockError, WSEvent.sockClose, WSEvent.retryTimer,
     WSEvent.sockError, WSEvent.sockClose]
    (connect initState)

/-- A state in which the failure notice has been surfaced. -/
def surfacedErrorState : WSState :=
  { initState with
    retryCount := 3
    hasShownError := true
    connectionError := some CONNECTION_ERROR_MESSAGE
    noticesSurfaced := 1 }

/-- A state in which a connection attempt is in flight. -/
def inFlightState : WSState :=
  { initState with isConnecting := true, socketsCreated := 1 }

/-! ### Helper lemmas about find-by-identifier and set -/

/-- When position `i` holds the first record whose key equals `k`, the
`findIndex` scan returns `i`. -/
theorem findIdx?_key_first {α : Type} (key : α → Int) (l : List α) (k : Int)
    (i : Nat) (r : α) (hr : l[i]? = some r) (hid : key r = k)
    (hbefore : ∀ j, j < i → ∀ s, l[j]? = some s → key s ≠ k) :
    l.findIdx? (fun x => key x == k) = some i := by
  obtain ⟨hi, hri⟩ := List.getElem?_eq_some_iff.mp hr
  rw [List.findIdx?_eq_some_iff_getElem]
  refine ⟨hi, ?_, ?_⟩
  · simp only [beq_iff_eq, hri, hid]
  · intro j hj
    have hjl : j < l.length := Nat.lt_trans hj hi
    have hne := hbefore j hj (l.get ⟨j, hjl⟩) (by simp)
    simpa using hne

/-- When no record's key equals `k`, the `findIndex` scan fails. -/
theorem findIdx?_key_none {α : Type} (key : α → Int) (l : List α) (k : Int)
    (h : ∀ x ∈ l, key x ≠ k) :
    l.findIdx? (fun x => key x == k) = none := by
  rw [List.findIdx?_eq_none_iff]
  intro x hx
  exact beq_eq_false_iff_ne.mpr (h x hx)

/-- In a collection with pairwise-distinct keys, the record at position `i`
is the only one with its key, so every earlier position mismatches. -/
theorem before_of_nodup_keys {α : Type} (key : α → Int) (l : List α) (k : Int)
    (hnd : (l.map key).Nodup) (i : Nat) (r : α)
    (hr : l[i]? = some r) (hk : key r = k) :
    ∀ j, j < i → ∀ s, l[j]? = some s → key s ≠ k := by
  intro j hj s hs hks
  obtain ⟨hi, hri⟩ := List.getElem?_eq_some_iff.mp hr
  obtain ⟨hjl, hsj⟩ := List.getElem?_eq_some_iff.mp hs
  have hjm : j < (l.map key).length := by simpa using hjl
  have him : i < (l.map key).length := by simpa using hi
  have hmap : (l.map key).get ⟨j, hjm⟩ = (l.map key).get ⟨i, him⟩ := by
    simp only [List.get_eq_getElem, List.getElem_map]
    rw [hri, hsj, hk, hks]
  have hfin : (⟨j, hjm⟩ : Fin (l.map key).length) = ⟨i, him⟩ :=
    hnd.get_inj_iff.mp hmap
  have : j = i := congrArg Fin.val hfin
  omega

/-- `updateRequest` unfolded at a successful `findIndex`. -/
theorem updateRequest_eq_of_findIdx (items : List Request) (p : Request) (i : Nat)
    (h : items.findIdx? (fun r => r.id == p.id) = some i) :
    updateRequest items p = items.set i p := by
  unfold updateRequest
  rw [h]

/-- `updateFeedback` unfolded at a successful `findIndex`. -/
theorem updateFeedback_eq_of_findIdx (items : List Feedback) (p : Feedback) (i : Nat)
    (h : items.findIdx? (fun f => f.id == p.id) = some i) :
    updateFeedback items p = items.set i p := by
  unfold updateFeedback
  rw [h]

/-- `updateRequest` is the identity when no record carries the payload's
identifier. -/
theorem updateRequest_absent (items : List Request) (p : Request)
    (h : ∀ r ∈ items, r.id ≠ p.id) :
    updateRequest items p = items := by
  unfold updateRequest
  rw [findIdx?_key_none Request.id items p.id h]

/-- `updateFeedback` is the identity when no record carries the payload's
identifier. -/
theorem updateFeedback_absent (items : List Feedback) (p : Feedback)
    (h : ∀ f ∈ items, f.id ≠ p.id) :
    updateFeedback items p = items := by
  unfold updateFeedback
  rw [findIdx?_key_none Feedback.id items p.id h]

/-- Replacing the record found by `findIndex` replaces the first match in
place: same length, payload at the match position, all other positions
untouched. -/
theorem updateRequest_first_match (items : List Request) (p : Request) (i : Nat)
    (r : Request) (hr : items[i]? = some r) (hid : r.id = p.id)
    (hbefore : ∀ j, j < i → ∀ s, items[j]? = some s → s.id ≠ p.id) :
    (updateRequest items p).length = items.length
    ∧ (updateRequest items p)[i]? = some p
    ∧ ∀ j, j ≠ i → (updateRequest items p)[j]? = items[j]? := by
  have hfind := findIdx?_key_first Request.id items p.id i r hr hid hbefore
  rw [updateRequest_eq_of_findIdx items p i hfind]
  obtain ⟨hi, -⟩ := List.getElem?_eq_some_iff.mp hr
  exact ⟨List.length_set items i p, List.getElem?_set_self hi,
    fun j hj => List.getElem?_set_ne (fun hij => hj hij.symm)⟩

/-- Replacing the record found by `findIndex` replaces the first match in
place (feedback collection). -/
theorem updateFeedback_first_match (items : List Feedback) (p : Feedback) (i : Nat)
    (f : Feedback) (hf : items[i]? = some f) (hid : f.id = p.id)
    (hbefore : ∀ j, j < i → ∀ s, items[j]? = some s → s.id ≠ p.id) :
    (updateFeedback items p).length = items.length
    ∧ (updateFeedback items p)[i]? = some p
    ∧ ∀ j, j ≠ i → (updateFeedback items p)[j]? = items[j]? := by
  have hfind := findIdx?_key_first Feedback.id items p.id i f hf hid hbefore
  rw [updateFeedback_eq_of_findIdx items p i hfind]
  obtain ⟨hi, -⟩ := List.getElem?_eq_some_iff.mp hf
  exact ⟨List.length_set items i p, List.getElem?_set_self hi,
    fun j hj => List.getElem?_set_ne (fun hij => hj hij.symm)⟩

/-- The upsert never changes the sequence of identifiers: it either leaves
the collection alone or overwrites a record with one carrying the same
identifier. -/
theorem updateRequest_map_id (items : List Request) (p : Request) :
    (updateRequest items p).map Request.id = items.map Request.id := by
  unfold updateRequest
  cases h : items.findIdx? (fun r => r.id == p.id) with
  | none => rfl
  | some i =>
    obtain ⟨hi, hp, -⟩ := List.findIdx?_eq_some_iff_getElem.mp h
    have hid : Request.id (items.get ⟨i, hi⟩) = p.id := by simpa using hp
    rw [List.map_set]
    apply List.ext_getElem?
    intro j
    by_cases hji : j = i
    · subst hji
      rw [List.getElem?_set_self (by simpa using hi), List.getElem?_map,
        List.getElem?_eq_getElem hi]
      simpa using hid.symm
    · exact List.getElem?_set_ne (fun hij => hji hij.symm)

/-- The feedback upsert never changes the sequence of identifiers. -/
theorem updateFeedback_map_id (items : List Feedback) (p : Feedback) :
    (updateFeedback items p).map Feedback.id = items.map Feedback.id := by
  unfold updateFeedback
  cases h : items.findIdx? (fun f => f.id == p.id) with
  | none => rfl
  | some i =>
    obtain ⟨hi, hp, -⟩ := List.findIdx?_eq_some_iff_getElem.mp h
    have hid : Feedback.id (items.get ⟨i, hi⟩) = p.id := by simpa using hp
    rw [List.map_set]
    apply List.ext_getElem?
    intro j
    by_cases hji : j = i
    · subst hji
      rw [List.getElem?_set_self (by simpa using hi), List.getElem?_map,
        List.getElem?_eq_getElem hi]
      simpa using hid.symm
    · exact List.getElem?_set_ne (fun hij => hji hij.symm)

/-! ### Claim theorems for the store -/

/-- C4 (counterexample): identifier uniqueness is not an invariant of every
store operation.  The collections `[req1]` and `[fb1]` satisfy it, yet a
single dispatch of a "new" envelope whose payload reuses identifier 1
(`addRequest` / `addFeedback` unshift without any collision check) yields a
collection with two records of identifier 1. -/
theorem insert_breaks_uniqueness :
    uniqueRequestIds [req1]
    ∧ ¬ uniqueRequestIds (addRequest [req1] req1v2)
    ∧ uniqueFeedbackIds [fb1]
    ∧ ¬ uniqueFeedbackIds (addFeedback [fb1] fb1v2) := by
  refine ⟨by decide, ?_, by decide, ?_⟩ <;> decide

/-- C4 (amended): identifier uniqueness is preserved by the snapshot set
(for a duplicate-free snapshot) and by the "updated" upsert, and by the
"new" insert exactly when the inserted identifier is not already present;
the unguarded insert of an already-present identifier is the one operation
that violates it. -/
theorem store_ops_preserve_uniqueness_except_insert :
    (∀ (items : List Request) (p : Request),
      uniqueRequestIds items → uniqueRequestIds (updateRequest items p))
    ∧ (∀ (items : List Feedback) (p : Feedback),
      uniqueFeedbackIds items → uniqueFeedbackIds (updateFeedback items p))
    ∧ (∀ (items : List Request) (p : Request),
      uniqueRequestIds (addRequest items p)
        ↔ p.id ∉ items.map Request.id ∧ uniqueRequestIds items)
    ∧ (∀ (items : List Feedback) (p : Feedback),
      uniqueFeedbackIds (addFeedback items p)
        ↔ p.id ∉ items.map Feedback.id ∧ uniqueFeedbackIds items)
    ∧ (∀ (old payload : List Request),
      uniqueRequestIds payload → uniqueRequestIds (setRequests old payload))
    ∧ (∀ (old payload : List Feedback),
      uniqueFeedbackIds payload → uniqueFeedbackIds (setFeedback old payload)) := by
  refine ⟨?_, ?_, ?_, ?_, ?_, ?_⟩
  · intro items p h
    unfold uniqueRequestIds at h ⊢
    rw [updateRequest_map_id]
    exact h
  · intro items p h
    unfold uniqueFeedbackIds at h ⊢
    rw [updateFeedback_map_id]
    exact h
  · intro items p
    simp [uniqueRequestIds, addRequest, List.nodup_cons]
  · intro items p
    simp [uniqueFeedbackIds, addFeedback, List.nodup_cons]
  · intro old payload h
    exact h
  · intro old payload h
    exact h

/-- C4 (witness for the amended theorem): the upsert of a payload with
identifier 1 into the duplicate-free collection `[req1, req2]` keeps the
identifiers duplicate-free, and the insert of an absent identifier 2 into
`[fb1]` keeps the feedback identifiers duplicate-free. -/
theorem store_ops_preserve_uniqueness_except_insert_witness :
    uniqueRequestIds (updateRequest [req1, req2] req1v2)
    ∧ uniqueFeedbackIds (addFeedback [fb1] fb2) :=
  ⟨store_ops_preserve_uniqueness_except_insert.1 [req1, req2] req1v2 (by decide),
   (store_ops_preserve_uniqueness_except_insert.2.2.2.1 [fb1] fb2).mpr
     (by refine ⟨by decide, by decide⟩)⟩

/-- C5: for each collection, dispatching an "updated" envelope whose
identifier is absent leaves the collection unchanged, and dispatching one
whose identifier is present in a duplicate-free collection replaces that
record in place: the length is unchanged, the payload sits at the matched
record's position, and every other position is untouched. -/
theorem update_replaces_in_place :
    (∀ (items : List Request) (p : Request),
      (∀ r ∈ items, r.id ≠ p.id) → updateRequest items p = items)
    ∧ (∀ (items : List Request) (p : Request) (i : Nat) (r : Request),
      uniqueRequestIds items → items[i]? = some r → r.id = p.id →
      (updateRequest items p).length = items.length
      ∧ (updateRequest items p)[i]? = some p
      ∧ ∀ j, j ≠ i → (updateRequest items p)[j]? = items[j]?)
    ∧ (∀ (items : List Feedback) (p : Feedback),
      (∀ f ∈ items, f.id ≠ p.id) → updateFeedback items p = items)
    ∧ (∀ (items : List Feedback) (p : Feedback) (i : Nat) (f : Feedback),
      uniqueFeedbackIds items → items[i]? = some f → f.id = p.id →
      (updateFeedback items p).length = items.length
      ∧ (updateFeedback items p)[i]? = some p
      ∧ ∀ j, j ≠ i → (updateFeedback items p)[j]? = items[j]?) := by
  refine ⟨updateRequest_absent, ?_, updateFeedback_absent, ?_⟩
  · intro items p i r hu hr hid
    exact updateRequest_first_match items p i r hr hid
      (before_of_nodup_keys Request.id items p.id hu i r hr hid)
  · intro items p i f hu hf hid
    exact updateFeedback_first_match items p i f hf hid
      (before_of_nodup_keys Feedback.id items p.id hu i f hf hid)

/-- C5 (witness): updating absent identifier 1 in `[req2]` is a no-op, and
updating identifier 1 in `[req1, req2]` replaces position 0 in place. -/
theorem update_replaces_in_place_witness :
    updateRequest [req2] req1 = [req2]
    ∧ ((updateRequest [req1, req2] req1v2).length = ([req1, req2] : List Request).length
      ∧ (updateRequest [req1, req2] req1v2)[0]? = some req1v2
      ∧ ∀ j, j ≠ 0 → (updateRequest [req1, req2] req1v2)[j]? = ([req1, req2] : List Request)[j]?) :=
  ⟨update_replaces_in_place.1 [req2] req1 (by decide),
   update_replaces_in_place.2.1 [req1, req2] req1v2 0 req1 (by decide) (by decide) (by decide)⟩

/-- C6: dispatching a "new" envelope always places the payload at the front
of its collection and grows the collection by exactly one entry; the
statement is universally quantified over the prior collection, so it holds
in particular when a record with the payload's identifier is already
present (no collision check is performed). -/
theorem insert_always_prepends :
    (∀ (items : List Request) (p : Request),
      addRequest items p = p :: items
      ∧ (addRequest items p).length = items.length + 1)
    ∧ (∀ (items : List Feedback) (f : Feedback),
      addFeedback items f = f :: items
      ∧ (addFeedback items f).length = items.length + 1) := by
  constructor
  · intro items p
    exact ⟨rfl, by simp [addRequest]⟩
  · intro items f
    exact ⟨rfl, by simp [addFeedback]⟩

/-- C10: when a collection holds several records with the payload's
identifier, the "updated" dispatch rewrites only the first (lowest-index)
match; every later duplicate, and every other record, stays exactly where
and what it was. -/
theorem update_replaces_first_duplicate_only :
    (∀ (items : List Request) (p : Request) (i j : Nat) (r s : Request),
      i < j → items[i]? = some r → items[j]? = some s →
      r.id = p.id → s.id = p.id →
      (∀ k, k < i → ∀ t, items[k]? = some t → t.id ≠ p.id) →
      (updateRequest items p)[i]? = some p
      ∧ (updateRequest items p)[j]? = some s
      ∧ ∀ k, k ≠ i → (updateRequest items p)[k]? = items[k]?)
    ∧ (∀ (items : List Feedback) (p : Feedback) (i j : Nat) (f g : Feedback),
      i < j → items[i]? = some f → items[j]? = some g →
      f.id = p.id → g.id = p.id →
      (∀ k, k < i → ∀ t, items[k]? = some t → t.id ≠ p.id) →
      (updateFeedback items p)[i]? = some p
      ∧ (updateFeedback items p)[j]? = some g
      ∧ ∀ k, k ≠ i → (updateFeedback items p)[k]? = items[k]?) := by
  constructor
  · intro items p i j r s hij hr hs hrid hsid hbefore
    obtain ⟨-, hat, hoth⟩ := updateRequest_first_match items p i r hr hrid hbefore
    refine ⟨hat, ?_, hoth⟩
    rw [hoth j (by omega)]
    exact hs
  · intro items p i j f g hij hf hg hfid hgid hbefore
    obtain ⟨-, hat, hoth⟩ := updateFeedback_first_match items p i f hf hfid hbefore
    refine ⟨hat, ?_, hoth⟩
    rw [hoth j (by omega)]
    exact hg

/-- C10 (witness): in `[req2, req1, req1v3]`, where positions 1 and 2 both
carry identifier 1, updating identifier 1 rewrites position 1 only and
leaves the duplicate at position 2 unchanged. -/
theorem update_replaces_first_duplicate_only_witness :
    (updateRequest [req2, req1, req1v3] req1v2)[1]? = some req1v2
    ∧ (updateRequest [req2, req1, req1v3] req1v2)[2]? = some req1v3
    ∧ ∀ k, k ≠ 1 →
      (updateRequest [req2, req1, req1v3] req1v2)[k]? = ([req2, req1, req1v3] : List Request)[k]? :=
  update_replaces_first_duplicate_only.1 [req2, req1, req1v3] req1v2 1 2 req1 req1v3
    (by decide) (by decide) (by decide) (by decide) (by decide) (by decide)

/-! ### Helper lemmas about the connection state machine -/

/-- The dispatcher touches only the two store collections: every
connection-machine field survives it unchanged. -/
theorem dispatchMessage_nonstore (m : Message) (st : WSState) :
    (dispatchMessage m st).isCleaning = st.isCleaning
    ∧ (dispatchMessage m st).timerPending = st.timerPending
    ∧ (dispatchMessage m st).socketsCreated = st.socketsCreated
    ∧ (dispatchMessage m st).noticesSurfaced = st.noticesSurfaced
    ∧ (dispatchMessage m st).retryCount = st.retryCount
    ∧ (dispatchMessage m st).hasShownError = st.hasShownError := by
  unfold dispatchMessage
  split <;> exact ⟨rfl, rfl, rfl, rfl, rfl, rfl⟩

/-- The message handler touches only the two store collections: every
connection-machine field survives it unchanged. -/
theorem onmessage_nonstore (f : Frame) (st : WSState) :
    (onmessage f st).isCleaning = st.isCleaning
    ∧ (onmessage f st).timerPending = st.timerPending
    ∧ (onmessage f st).socketsCreated = st.socketsCreated
    ∧ (onmessage f st).noticesSurfaced = st.noticesSurfaced
    ∧ (onmessage f st).retryCount = st.retryCount
    ∧ (onmessage f st).hasShownError = st.hasShownError := by
  cases f with
  | malformed => exact ⟨rfl, rfl, rfl, rfl, rfl, rfl⟩
  | wellFormed m => exact dispatchMessage_nonstore m st

/-- Once cleanup has begun and the retry timer is cancelled, any further
event leaves the machine torn down, leaves the timer cancelled, and
constructs no socket. -/
theorem step_preserves_torndown (e : WSEvent) (st : WSState)
    (h1 : st.isCleaning = true) (h2 : st.timerPending = false) :
    (step e st).isCleaning = true
    ∧ (step e st).timerPending = false
    ∧ (step e st).socketsCreated = st.socketsCreated := by
  cases e with
  | sockOpen => exact ⟨h1, h2, rfl⟩
  | sockError => exact ⟨h1, h2, rfl⟩
  | sockClose => simp [step, onclose, h1, h2]
  | sockMessage f =>
    obtain ⟨a, b, c, -, -, -⟩ := onmessage_nonstore f st
    exact ⟨a.trans h1, b.trans h2, c⟩
  | retryTimer => simp [step, timerFire, h1, h2]
  | unmount => exact ⟨rfl, rfl, rfl⟩
  | dismiss => exact ⟨h1, h2, rfl⟩

/-- Torn-down runs: iterating `step_preserves_torndown` over any event
sequence. -/
theorem runEvents_torndown (evs : List WSEvent) : ∀ st : WSState,
    st.isCleaning = true → st.timerPending = false →
    (runEvents evs st).isCleaning = true
    ∧ (runEvents evs st).timerPending = false
    ∧ (runEvents evs st).socketsCreated = st.socketsCreated := by
  induction evs with
  | nil => exact fun st h1 h2 => ⟨h1, h2, rfl⟩
  | cons e rest ih =>
    intro st h1 h2
    obtain ⟨a, b, c⟩ := step_preserves_torndown e st h1 h2
    obtain ⟨a2, b2, c2⟩ := ih (step e st) a b
    exact ⟨a2, b2, c2.trans c⟩

/-- Once the retry budget is spent, the timer is idle and the notice flag
is set, any event other than a successful open keeps the budget spent,
schedules nothing, constructs no socket and surfaces no further notice. -/
theorem step_preserves_spent (e : WSEvent) (st : WSState)
    (hne : e ≠ WSEvent.sockOpen)
    (h1 : MAX_RETRY_ATTEMPTS ≤ st.retryCount) (h2 : st.timerPending = false)
    (h3 : st.hasShownError = true) :
    MAX_RETRY_ATTEMPTS ≤ (step e st).retryCount
    ∧ (step e st).timerPending = false
    ∧ (step e st).hasShownError = true
    ∧ (step e st).socketsCreated = st.socketsCreated
    ∧ (step e st).noticesSurfaced = st.noticesSurfaced := by
  cases e with
  | sockOpen => exact absurd rfl hne
  | sockError =>
    refine ⟨?_, h2, h3, rfl, rfl⟩
    show MAX_RETRY_ATTEMPTS ≤ st.retryCount + 1
    omega
  | sockClose =>
    cases hcl : st.isCleaning with
    | true =>
      have hstep : step WSEvent.sockClose st =
          { st with isConnecting := false, wsOpen := false } := by
        simp [step, onclose, hcl]
      rw [hstep]
      exact ⟨h1, h2, h3, rfl, rfl⟩
    | false =>
      have hsr : (shouldRetry (st.retryCount + 1)).1 = false := by
        show decide (st.retryCount + 1 < MAX_RETRY_ATTEMPTS) = false
        exact decide_eq_false (by omega)
      have hstep : step WSEvent.sockClose st =
          { st with
            isConnecting := false
            wsOpen := false
            retryCount := st.retryCount + 1 } := by
        simp [step, onclose, hcl, hsr, showConnectionError, h3]
      rw [hstep]
      refine ⟨?_, h2, h3, rfl, rfl⟩
      show MAX_RETRY_ATTEMPTS ≤ st.retryCount + 1
      omega
  | sockMessage f =>
    obtain ⟨-, b, c, d, r, hse⟩ := onmessage_nonstore f st
    exact ⟨r ▸ h1, b.trans h2, hse.trans h3, c, d⟩
  | retryTimer =>
    have hstep : step WSEvent.retryTimer st = st := by
      simp [step, timerFire, h2]
    rw [hstep]
    exact ⟨h1, h2, h3, rfl, rfl⟩
  | unmount => exact ⟨h1, rfl, h3, rfl, rfl⟩
  | dismiss => exact ⟨h1, h2, h3, rfl, rfl⟩

/-- Spent runs: iterating `step_preserves_spent` over any event sequence
that contains no successful open. -/
theorem runEvents_spent (evs : List WSEvent) : ∀ st : WSState,
    (∀ e ∈ evs, e ≠ WSEvent.sockOpen) →
    MAX_RETRY_ATTEMPTS ≤ st.retryCount → st.timerPending = false →
    st.hasShownError = true →
    (runEvents evs st).socketsCreated = st.socketsCreated
    ∧ (runEvents evs st).noticesSurfaced = st.noticesSurfaced := by
  induction evs with
  | nil => exact fun st _ _ _ _ => ⟨rfl, rfl⟩
  | cons e rest ih =>
    intro st hmem h1 h2 h3
    obtain ⟨a1, a2, a3, a4, a5⟩ :=
      step_preserves_spent e st (hmem e (by simp)) h1 h2 h3
    obtain ⟨b1, b2⟩ := ih (step e st) (fun x hx => hmem x (by simp [hx])) a1 a2 a3
    exact ⟨b1.trans a4, b2.trans a5⟩

/-! ### Claim theorems for the connection state machine -/

/-- C1: the retry decision consulted on close refuses exactly when the
attempt counter has reached MAX_RETRY_ATTEMPTS = 3 and otherwise grants a
retry after the fixed RETRY_DELAY = 3000 ms; in the run where the initial
attempt and both scheduled retries fail (each failure a transport close),
exactly three sockets are ever constructed, exactly one error notice is
surfaced, no retry timer is left pending and the failure notice is showing
— the terminal Failed configuration — and no continuation of that run
without a successful open ever constructs a fourth socket or surfaces a
second notice. -/
theorem retry_cap_and_no_fourth_attempt :
    (∀ n, MAX_RETRY_ATTEMPTS ≤ n → (shouldRetry n).1 = false)
    ∧ (∀ n, n < MAX_RETRY_ATTEMPTS → shouldRetry n = (true, RETRY_DELAY))
    ∧ (threeFailRun.socketsCreated = 3
      ∧ threeFailRun.noticesSurfaced = 1
      ∧ threeFailRun.timerPending = false
      ∧ threeFailRun.connectionError = some CONNECTION_ERROR_MESSAGE)
    ∧ (∀ evs : List WSEvent, (∀ e ∈ evs, e ≠ WSEvent.sockOpen) →
      (runEvents evs threeFailRun).socketsCreated = 3
      ∧ (runEvents evs threeFailRun).noticesSurfaced = 1) := by
  refine ⟨?_, ?_, ⟨by decide, by decide, by decide, by decide⟩, ?_⟩
  · intro n h
    show decide (n < MAX_RETRY_ATTEMPTS) = false
    exact decide_eq_false (by omega)
  · intro n h
    show (decide (n < MAX_RETRY_ATTEMPTS), RETRY_DELAY) = (true, RETRY_DELAY)
    rw [decide_eq_true h]
  · intro evs hmem
    obtain ⟨a, b⟩ := runEvents_spent evs threeFailRun hmem
      (by decide) (by decide) (by decide)
    exact ⟨a.trans (by decide), b.trans (by decide)⟩

/-- C1 (witness): the decision at counter 3 is a refusal, the decision at
counter 2 is a retry after 3000 ms, and the exhausted run followed by a
stray timer elapse and a stray close still shows three sockets and one
notice. -/
theorem retry_cap_and_no_fourth_attempt_witness :
    (shouldRetry 3).1 = false
    ∧ shouldRetry 2 = (true, RETRY_DELAY)
    ∧ ((runEvents [WSEvent.retryTimer, WSEvent.sockClose] threeFailRun).socketsCreated = 3
      ∧ (runEvents [WSEvent.retryTimer, WSEvent.sockClose] threeFailRun).noticesSurfaced = 1) :=
  ⟨retry_cap_and_no_fourth_attempt.1 3 (by decide),
   retry_cap_and_no_fourth_attempt.2.1 2 (by decide),
   retry_cap_and_no_fourth_attempt.2.2.2
     [WSEvent.retryTimer, WSEvent.sockClose] (by decide)⟩

/-- C2 (code evaluation at the failing input): with each failed attempt
reported as a transport error event followed by a close event — the event
shape the claim itself stipulates — the counter reads 2, not 1, after the
first failed attempt, because both ws.onerror and ws.onclose increment it;
after the second failed attempt it reads 4, the failure notice has already
been surfaced and no retry timer is pending, so the third attempt that the
claimed scenario says succeeds never starts. -/
theorem retry_counter_double_increment :
    (runEvents [WSEvent.sockError, WSEvent.sockClose] (connect initState)).retryCount = 2
    ∧ errorCloseTwiceRun.retryCount = 4
    ∧ errorCloseTwiceRun.socketsCreated = 2
    ∧ errorCloseTwiceRun.noticesSurfaced = 1
    ∧ errorCloseTwiceRun.timerPending = false := by
  exact ⟨by decide, by decide, by decide, by decide, by decide⟩

/-- C3: once teardown has begun — the cleanup sets the isCleaning flag and
cancels the pending retry timer — no continuation of the run ever
constructs another socket or leaves a retry timer pending: a timer elapse
finds the timer cancelled, and a transport close arriving after teardown is
stopped by the isCleaning guard before it can schedule a reconnection. -/
theorem no_reconnect_after_teardown (st : WSState) (evs : List WSEvent) :
    (runEvents evs (teardown st)).socketsCreated = st.socketsCreated
    ∧ (runEvents evs (teardown st)).timerPending = false
    ∧ (runEvents evs (teardown st)).isCleaning = true := by
  obtain ⟨a, b, c⟩ := runEvents_torndown evs (teardown st) rfl rfl
  exact ⟨c, b, a⟩

/-- C7 (counterexample): in the surfaced-error state, dismissing clears the
notice but leaves the ErrorFlag (hasShownErrorRef) set, refuting the claim
that the dismiss operation clears the ErrorFlag. -/
theorem dismiss_does_not_clear_error_flag :
    surfacedErrorState.hasShownError = true
    ∧ (clearError surfacedErrorState).connectionError = none
    ∧ (clearError surfacedErrorState).hasShownError = true :=
  ⟨rfl, rfl, rfl⟩

/-- C7 (amended): dismissing clears the surfaced error notice and nothing
else — the ErrorFlag keeps its value, and the RetryCounter, the connection
guards and handle, the ghost observables and both store collections are
left exactly as they were. -/
theorem dismiss_clears_notice_only (st : WSState) :
    (clearError st).connectionError = none
    ∧ (clearError st).hasShownError = st.hasShownError
    ∧ (clearError st).retryCount = st.retryCount
    ∧ (clearError st).isConnecting = st.isConnecting
    ∧ (clearError st).isCleaning = st.isCleaning
    ∧ (clearError st).timerPending = st.timerPending
    ∧ (clearError st).wsOpen = st.wsOpen
    ∧ (clearError st).socketsCreated = st.socketsCreated
    ∧ (clearError st).noticesSurfaced = st.noticesSurfaced
    ∧ (clearError st).requests = st.requests
    ∧ (clearError st).feedback = st.feedback :=
  ⟨rfl, rfl, rfl, rfl, rfl, rfl, rfl, rfl, rfl, rfl, rfl⟩

/-- C8: an inbound frame that JSON.parse rejects is swallowed by the catch
block of the message handler: the handler returns normally (it is a total
function, so no exception crosses the boundary) with the whole state —
both stores, the connection fields, the RetryCounter, the ErrorFlag and
the surfaced notice — exactly unchanged. -/
theorem malformed_frame_has_no_effect (f : Frame) (st : WSState) (msg : String)
    (h : parseFrame f = Except.error msg) :
    onmessage f st = st := by
  simp [onmessage, h]

/-- C8 (witness): the malformed frame leaves the initial state untouched. -/
theorem malformed_frame_has_no_effect_witness :
    onmessage Frame.malformed initState = initState :=
  malformed_frame_has_no_effect Frame.malformed initState
    "SyntaxError: unexpected token in JSON" rfl

/-- C9: while a previous connection attempt is still in flight (the
isConnecting guard is set), a further connect call returns immediately with
the state unchanged — in particular it constructs no second socket. -/
theorem connect_noop_while_in_flight (st : WSState) (h : st.isConnecting = true) :
    connect st = st := by
  simp [connect, h]

/-- C9 (witness): a connect call against the in-flight state is the
identity. -/
theorem connect_noop_while_in_flight_witness :
    connect inFlightState = inFlightState :=
  connect_noop_while_in_flight inFlightState rfl

end HotelOps
